import Mathlib

/-!
Shallow embedding of the Shop Lite backend (`src/main.py`).

The service is a FastAPI application over a MongoDB-style document store.
Documents are modelled as insertion-ordered association lists from string
keys to JSON-like values; the store is an `Option DB` (`none` models the
unconfigured state `db is None`).  HTTP outcomes are modelled by `Resp`:
either a success value or an error with a status code and detail string,
matching `HTTPException(status_code, detail)`.

`database.py` and `schemas.py` are imported by `main.py` but are not part
of the available sources; the definitions taken from them are modelled
from the spec and marked as such in their doc comments.
-/

/-- JSON-like values stored in documents.  `vOid` is MongoDB's native
`ObjectId`, carried as its 24-character lowercase-hex string form. -/
inductive Value where
  | vStr (s : String)
  | vNum (q : ℚ)
  | vBool (b : Bool)
  | vOid (s : String)
  deriving DecidableEq, Repr

open Value

/-- A document: an insertion-ordered dictionary (Python `dict`). -/
abbrev Doc := List (String × Value)

namespace Doc

/-- Lookup `doc.get(k)`: first value bound to `k`, if any. -/
def get (d : Doc) (k : String) : Option Value :=
  match d with
  | [] => none
  | (k', v) :: rest => if k' = k then some v else get rest k

/-- Assignment `doc[k] = v`: update in place if the key exists, else append. -/
def set (d : Doc) (k : String) (v : Value) : Doc :=
  match d with
  | [] => [(k, v)]
  | (k', v') :: rest => if k' = k then (k', v) :: rest else (k', v') :: set rest k v

/-- Deletion `del doc[k]`: remove every binding of `k`. -/
def erase (d : Doc) (k : String) : Doc :=
  match d with
  | [] => []
  | (k', v') :: rest => if k' = k then erase rest k else (k', v') :: erase rest k

/-- Membership `k in doc`. -/
def hasKey (d : Doc) (k : String) : Bool :=
  (d.get k).isSome

end Doc

/-- Hex digit test, as accepted by `bson.ObjectId` string parsing. -/
def isHexDigit (c : Char) : Bool :=
  (Char.ofNat 48 ≤ c ∧ c ≤ Char.ofNat 57) ∨
  (Char.ofNat 97 ≤ c ∧ c ≤ Char.ofNat 102) ∨
  (Char.ofNat 65 ≤ c ∧ c ≤ Char.ofNat 70)

/-- Validity test: `ObjectId(s)` succeeds exactly when `s` is a 24-character hex string. -/
def isValidOid (s : String) : Bool :=
  s.length = 24 && s.data.all isHexDigit

/-- Parsing `ObjectId(s)`: the constructor raises `InvalidId` on malformed
input, so it is modelled as `Option`. -/
def parseOid (s : String) : Option String :=
  if isValidOid s then some s else none

/-- Lowercase hex digit for `n % 16`. -/
def hexDigit (n : Nat) : Char :=
  if n % 16 < 10 then Char.ofNat (48 + n % 16) else Char.ofNat (87 + n % 16)

/-- The 24-character hex string of the `n`-th store-assigned ObjectId. -/
def oidOfNat (n : Nat) : String :=
  ⟨(List.range 24).map fun i => hexDigit (n / 16 ^ (23 - i))⟩

/-- The document store state: one collection per name used by the service,
plus a counter from which fresh ObjectIds are assigned. -/
structure DB where
  product : List Doc
  order : List Doc
  nextId : Nat
  deriving DecidableEq, Repr

/-- Collection access `db[c]` restricted to the two collection names the
service uses. -/
def DB.coll (d : DB) (c : String) : List Doc :=
  if c = "product" then d.product
  else if c = "order" then d.order
  else []

def DB.setColl (d : DB) (c : String) (docs : List Doc) : DB :=
  if c = "product" then { d with product := docs }
  else if c = "order" then { d with order := docs }
  else d

/-- Modelled from the spec: `create_document` lives in `database.py`, which
is missing from the sources.  Per the spec's store-adapter contract,
`insert(collection_name, record)` appends the record to the named
collection and returns the newly assigned opaque identifier as a string;
the stored document carries the identifier in its native `_id` field. -/
def create_document (d : DB) (c : String) (record : Doc) : String × DB :=
  let oid := oidOfNat d.nextId
  let stored : Doc := ("_id", vOid oid) :: record
  (oid, { d.setColl c (d.coll c ++ [stored]) with nextId := d.nextId + 1 })

/-- Modelled from the spec: `get_documents` lives in `database.py`, which
is missing from the sources.  Per the spec's store-adapter contract,
`list_all(collection_name)` returns all records in insertion order. -/
def get_documents (d : DB) (c : String) : List Doc :=
  d.coll c

/-- Count of records: `db[c].count_documents` with the empty filter. -/
def count_documents (d : DB) (c : String) : Nat :=
  (d.coll c).length

/-- Lookup `find_one` filtering on the native `_id` field: first document
whose `_id` equals the given ObjectId, or absent. -/
def find_one (d : DB) (c : String) (oid : String) : Option Doc :=
  (d.coll c).find? fun doc => doc.get "_id" = some (vOid oid)

/-- An HTTP outcome: a success value, or `HTTPException(status, detail)`. -/
inductive Resp (α : Type) where
  | ok (a : α)
  | err (status : Nat) (detail : String)
  deriving DecidableEq, Repr

namespace Resp

def isOk {α : Type} : Resp α → Bool
  | ok _ => true
  | err _ _ => false

def statusOf {α : Type} : Resp α → Nat
  | ok _ => 200
  | err s _ => s

end Resp

/-- Function `serialize_doc` (src/main.py lines 34-42): on a non-empty document
whose `_id` is an ObjectId, copies the document, sets `id` to the
identifier's string form and deletes `_id`; otherwise returns the
document unchanged. -/
def serialize_doc (doc : Doc) : Doc :=
  if doc.isEmpty then doc
  else
    match doc.get "_id" with
    | some (vOid s) => (doc.set "id" (vStr s)).erase "_id"
    | _ => doc

/-- Modelled from the spec: the `Product` schema lives in `schemas.py`,
which is missing from the sources.  Per the spec's data model, a Product
has title, description, category and image (text), price (non-negative
decimal) and an in_stock flag; request bodies are validated against this
field set before any store call. -/
structure Product where
  title : String
  description : String
  price : ℚ
  category : String
  in_stock : Bool
  image : String
  deriving DecidableEq, Repr

/-- The document a validated Product body inserts, in declared field
order. -/
def Product.toDoc (p : Product) : Doc :=
  [("title", vStr p.title), ("description", vStr p.description),
   ("price", vNum p.price), ("category", vStr p.category),
   ("in_stock", vBool p.in_stock), ("image", vStr p.image)]

/-- Modelled from the spec: the `Order` schema lives in `schemas.py`,
which is missing from the sources.  Per the spec, an Order is
intentionally unconstrained beyond being a record, so any document is a
valid-shaped order body. -/
abbrev Order := Doc

/-- Endpoint `list_products` (src/main.py lines 90-95): empty list when the store
is unconfigured, else all product documents, serialized. -/
def list_products (store : Option DB) : Resp (List Doc) :=
  match store with
  | none => .ok []
  | some d => .ok ((get_documents d "product").map serialize_doc)

/-- Endpoint `create_product` (src/main.py lines 98-103): 500 when the store is
unconfigured, else inserts the validated body and returns the new
identifier string.  Returns the outcome together with the store state
after the call. -/
def create_product (store : Option DB) (product : Product) :
    Resp String × Option DB :=
  match store with
  | none => (.err 500 "Database not configured", none)
  | some d =>
    let r := create_document d "product" product.toDoc
    (.ok r.1, some r.2)

/-- Endpoint `get_product` (src/main.py lines 106-116): 500 when the store is
unconfigured; 400 when `ObjectId(product_id)` raises; 404 when no
document matches; else the serialized document. -/
def get_product (store : Option DB) (product_id : String) : Resp Doc :=
  match store with
  | none => .err 500 "Database not configured"
  | some d =>
    match parseOid product_id with
    | none => .err 400 "Invalid product id"
    | some oid =>
      match find_one d "product" oid with
      | none => .err 404 "Product not found"
      | some doc => .ok (serialize_doc doc)

/-- The body of a seed response: `{"inserted": n}` with an optional
`"message"`. -/
structure SeedResult where
  inserted : Nat
  message : Option String
  deriving DecidableEq, Repr

/-- The four fixed sample records of `seed_products`
(src/main.py lines 126-159). -/
def samples : List Doc :=
  [[("title", vStr "Minimal Tee"),
    ("description", vStr "Soft cotton t‑shirt with relaxed fit."),
    ("price", vNum 24),
    ("category", vStr "Apparel"),
    ("in_stock", vBool true),
    ("image", vStr "https://images.unsplash.com/photo-1512436991641-6745cdb1723f?q=80&w=800&auto=format&fit=crop")],
   [("title", vStr "Everyday Backpack"),
    ("description", vStr "Water‑resistant with laptop sleeve."),
    ("price", vNum 79),
    ("category", vStr "Bags"),
    ("in_stock", vBool true),
    ("image", vStr "https://images.unsplash.com/photo-1547949003-9792a18a2601?q=80&w=800&auto=format&fit=crop")],
   [("title", vStr "Ceramic Mug"),
    ("description", vStr "12oz glazed mug for hot and cold drinks."),
    ("price", vNum 14),
    ("category", vStr "Home"),
    ("in_stock", vBool true),
    ("image", vStr "https://images.unsplash.com/photo-1520975661595-6453be3f7070?q=80&w=800&auto=format&fit=crop")],
   [("title", vStr "Running Sneakers"),
    ("description", vStr "Breathable mesh, cushioned sole."),
    ("price", vNum 110),
    ("category", vStr "Footwear"),
    ("in_stock", vBool true),
    ("image", vStr "https://images.unsplash.com/photo-1542291026-7eec264c27ff?q=80&w=800&auto=format&fit=crop")]]

/-- Endpoint `seed_products` (src/main.py lines 119-164): 500 when the store is
unconfigured; no-op reporting `inserted: 0` when the product collection
is non-empty; else inserts the four samples in order and reports the
count.  Returns the outcome together with the store state after the
call. -/
def seed_products (store : Option DB) : Resp SeedResult × Option DB :=
  match store with
  | none => (.err 500 "Database not configured", none)
  | some d =>
    if count_documents d "product" > 0 then
      (.ok ⟨0, some "Products already exist"⟩, some d)
    else
      let final := samples.foldl (fun st p =>
        let r := create_document st.1 "product" p
        (r.2, st.2 + 1)) (d, 0)
      (.ok ⟨final.2, none⟩, some final.1)

/-- Endpoint `create_order` (src/main.py lines 168-173): 500 when the store is
unconfigured, else inserts the body into the order collection and
returns the new identifier string.  Returns the outcome together with
the store state after the call. -/
def create_order (store : Option DB) (order : Order) :
    Resp String × Option DB :=
  match store with
  | none => (.err 500 "Database not configured", none)
  | some d =>
    let r := create_document d "order" order
    (.ok r.1, some r.2)

/-- Truncation `str(e)[:50]`: the first fifty characters of a message. -/
def truncate50 (s : String) : String :=
  ⟨s.data.take 50⟩

/-- Response body of the diagnostic endpoint `/test`.  The two fields that
start out as Python `None` are `Option String`. -/
structure TestResponse where
  backend : String
  database : String
  database_url : Option String
  database_name : Option String
  connection_status : String
  collections : List String
  deriving DecidableEq, Repr

/-- Endpoint `test_database` (src/main.py lines 55-86).  `dbName` stands
for `db.name`; `listColl` is the outcome of `db.list_collection_names()`,
either a list of names or a raised exception message; `urlSet` and
`nameSet` tell whether the `DATABASE_URL` / `DATABASE_NAME` environment
variables are set.  A caught exception is summarized as text truncated to
fifty characters; the intermediate `database_url` / `database_name`
assignments are overwritten unconditionally before returning. -/
def test_database (store : Option DB) (dbName : String)
    (listColl : Except String (List String)) (urlSet nameSet : Bool) :
    TestResponse :=
  let response : TestResponse :=
    ⟨"✅ Running", "❌ Not Available", none, none, "Not Connected", []⟩
  let response :=
    match store with
    | some _ =>
      let r := { response with
        database := "✅ Available"
        database_url := some "✅ Configured"
        database_name := some dbName
        connection_status := "Connected" }
      match listColl with
      | .ok cols =>
        { r with collections := cols.take 10,
                 database := "✅ Connected & Working" }
      | .error e =>
        { r with database := "⚠️  Connected but Error: " ++ truncate50 e }
    | none => { response with database := "⚠️  Available but not initialized" }
  { response with
    database_url := some (if urlSet then "✅ Set" else "❌ Not Set")
    database_name := some (if nameSet then "✅ Set" else "❌ Not Set") }

/-- Reference-semantics model of `serialize_doc`: Python dicts are heap
references, so the heap is a list of documents addressed by position.
The statement `doc = dict(doc)` allocates a fresh copy and the subsequent
`doc["id"] = str(_id)` / `del doc["_id"]` mutate only that copy; on the
falsy early return the original reference comes back.  Returns the
updated heap and the reference of the returned dict. -/
def serialize_doc_ref (h : List Doc) (r : Nat) : List Doc × Nat :=
  match h[r]? with
  | none => (h, r)
  | some doc =>
    if doc.isEmpty then (h, r)
    else
      let copy := doc
      let copy :=
        match copy.get "_id" with
        | some (vOid s) => (copy.set "id" (vStr s)).erase "_id"
        | _ => copy
      (h ++ [copy], h.length)

/-- Predicate written from the spec's data model (§3): a Product record
has title, description, category and image of string type, a
non-negative price and a boolean in_stock flag.  Used to check the seed
samples against the declared field set. -/
def isProductDoc (doc : Doc) : Bool :=
  (match doc.get "title" with | some (vStr _) => true | _ => false) &&
  (match doc.get "description" with | some (vStr _) => true | _ => false) &&
  (match doc.get "price" with | some (vNum q) => decide (0 ≤ q) | _ => false) &&
  (match doc.get "category" with | some (vStr _) => true | _ => false) &&
  (match doc.get "in_stock" with | some (vBool _) => true | _ => false) &&
  (match doc.get "image" with | some (vStr _) => true | _ => false)

/-- An empty configured store, used to instantiate theorems. -/
def emptyDB : DB := ⟨[], [], 0⟩

/-- A concrete valid Product payload, used to instantiate theorems. -/
def sampleProduct : Product :=
  ⟨"Desk Lamp", "Warm LED lamp with dimmer.", 35, "Home", true,
   "https://example.com/lamp.jpg"⟩

/-! Helper lemmas about the document and store model. -/

lemma Doc.get_set_self (d : Doc) (k : String) (v : Value) :
    (d.set k v).get k = some v := by
  induction d with
  | nil => simp [Doc.set, Doc.get]
  | cons a rest ih =>
    by_cases h : a.1 = k
    · simp [Doc.set, Doc.get, h]
    · simp [Doc.set, Doc.get, h, ih]

lemma Doc.get_erase_self (d : Doc) (k : String) :
    (d.erase k).get k = none := by
  induction d with
  | nil => simp [Doc.erase, Doc.get]
  | cons a rest ih =>
    by_cases h : a.1 = k
    · simp [Doc.erase, h, ih]
    · simp [Doc.erase, Doc.get, h, ih]

lemma Doc.get_erase_ne (d : Doc) (k k' : String) (h : k' ≠ k) :
    (d.erase k').get k = d.get k := by
  induction d with
  | nil => simp [Doc.erase]
  | cons a rest ih =>
    by_cases ha : a.1 = k'
    · simp [Doc.erase, Doc.get, ha, h, ih]
    · by_cases hk : a.1 = k
      · simp [Doc.erase, Doc.get, ha, hk, Ne.symm h]
      · simp [Doc.erase, Doc.get, ha, hk, ih]

lemma find?_append_of_forall_false {α : Type} (p : α → Bool)
    (l₁ l₂ : List α) (h : ∀ x ∈ l₁, p x = false) :
    (l₁ ++ l₂).find? p = l₂.find? p := by
  induction l₁ with
  | nil => rfl
  | cons a rest ih =>
    have ha : p a = false := h a (by simp)
    simp only [List.cons_append, List.find?, ha]
    exact ih fun x hx => h x (by simp [hx])

lemma isHexDigit_hexDigit (m : Nat) : isHexDigit (hexDigit m) = true := by
  have hlt : m % 16 < 16 := Nat.mod_lt _ (by norm_num)
  unfold hexDigit isHexDigit
  set r := m % 16 with hr
  interval_cases r <;> decide

lemma isValidOid_oidOfNat (n : Nat) : isValidOid (oidOfNat n) = true := by
  unfold isValidOid oidOfNat
  apply Bool.and_eq_true_iff.mpr
  constructor
  · simp [String.length]
  · rw [List.all_eq_true]
    intro c hc
    simp only [String.data] at hc
    rcases List.mem_map.mp hc with ⟨i, _, rfl⟩
    exact isHexDigit_hexDigit _


lemma serialize_doc_id_spec (doc : Doc) (s : String)
    (h : doc.get "_id" = some (vOid s)) :
    (serialize_doc doc).get "id" = some (vStr s) ∧
    (serialize_doc doc).get "_id" = none := by
  have hne : doc.isEmpty = false := by
    cases doc with
    | nil => simp [Doc.get] at h
    | cons a rest => rfl
  constructor
  · simp only [serialize_doc, hne, Bool.false_eq_true, if_false, h]
    rw [Doc.get_erase_ne _ _ _ (by decide), Doc.get_set_self]
  · simp only [serialize_doc, hne, Bool.false_eq_true, if_false, h]
    exact Doc.get_erase_self _ _

/-- C1: for every valid Product payload `p`, `create_product` on a
configured store returns an identifier string `I` such that a subsequent
`get_product I` returns a record equal to `p` with an additional field
`id = I`.  The hypothesis says the freshly assigned identifier does not
already occur in the product collection, which holds for every store
state the service itself produces. -/
theorem claim_C1 (d : DB) (p : Product)
    (hfresh : ∀ doc ∈ d.product,
      doc.get "_id" ≠ some (vOid (oidOfNat d.nextId))) :
    ∃ I : String, (create_product (some d) p).1 = Resp.ok I ∧
      get_product (create_product (some d) p).2 I =
        Resp.ok (p.toDoc ++ [("id", vStr I)]) := by
  refine ⟨oidOfNat d.nextId, rfl, ?_⟩
  have h1 : parseOid (oidOfNat d.nextId) = some (oidOfNat d.nextId) := by
    simp [parseOid, isValidOid_oidOfNat]
  have h2 : find_one (create_document d "product" p.toDoc).2 "product"
      (oidOfNat d.nextId) =
      some (("_id", vOid (oidOfNat d.nextId)) :: p.toDoc) := by
    show (d.product ++ [("_id", vOid (oidOfNat d.nextId)) :: p.toDoc]).find? _ = _
    rw [find?_append_of_forall_false]
    · simp [List.find?, Doc.get]
    · exact fun x hx => decide_eq_false (hfresh x hx)
  show get_product (some (create_document d "product" p.toDoc).2)
      (oidOfNat d.nextId) = _
  simp only [get_product, h1, h2]
  rfl

/-- Witness for C1 at an empty store and a concrete payload. -/
theorem claim_C1_witness :
    ∃ I : String, (create_product (some emptyDB) sampleProduct).1 = Resp.ok I ∧
      get_product (create_product (some emptyDB) sampleProduct).2 I =
        Resp.ok (sampleProduct.toDoc ++ [("id", vStr I)]) :=
  claim_C1 emptyDB sampleProduct (by simp [emptyDB])

/-- C2, counterexample: on an unconfigured store (`db is None`) the
syntactically invalid identifier "not-an-id" yields status 500, not 400,
because the `db is None` check precedes identifier validation. -/
theorem claim_C2_counterexample :
    isValidOid "not-an-id" = false ∧
    get_product none "not-an-id" = Resp.err 500 "Database not configured" ∧
    (get_product none "not-an-id").statusOf ≠ 400 :=
  ⟨by decide, rfl, by decide⟩

/-- C2, amended: on a configured store, `get_product` with a
syntactically invalid identifier always yields 400, never 404 and never
500. -/
theorem claim_C2 (d : DB) (s : String) (h : isValidOid s = false) :
    get_product (some d) s = Resp.err 400 "Invalid product id" := by
  simp [get_product, parseOid, h]

/-- Witness for C2 at a concrete invalid identifier. -/
theorem claim_C2_witness :
    isValidOid "xyz" = false ∧
    get_product (some emptyDB) "xyz" = Resp.err 400 "Invalid product id" :=
  ⟨by decide, claim_C2 emptyDB "xyz" (by decide)⟩

/-- C3: starting from an empty product collection, the first
`seed_products` call inserts exactly the 4 fixed sample records and
reports `inserted: 4`; the second call reports `inserted: 0` and leaves
the store unchanged. -/
theorem claim_C3 (d : DB) (h : d.product = []) :
    (seed_products (some d)).1 = Resp.ok ⟨4, none⟩ ∧
    (seed_products (some d)).2 = some
      { d with
        product := samples.enum.map fun x =>
          ("_id", vOid (oidOfNat (d.nextId + x.1))) :: x.2,
        nextId := d.nextId + 4 } ∧
    ∀ d', (seed_products (some d)).2 = some d' →
      seed_products (some d') =
        (Resp.ok ⟨0, some "Products already exist"⟩, some d') := by
  obtain ⟨prod, ord, n⟩ := d
  simp only at h
  subst h
  refine ⟨rfl, ?_, ?_⟩
  · show _ = some (⟨_, _, _⟩ : DB)
    simp [seed_products, count_documents, DB.coll, DB.setColl,
      create_document, samples, List.enum]
  · intro d' hd'
    injection hd' with hinj
    subst hinj
    rfl

/-- Witness for C3 at the empty store. -/
theorem claim_C3_witness :
    (seed_products (some emptyDB)).1 = Resp.ok ⟨4, none⟩ ∧
    (seed_products (some emptyDB)).2 = some
      { emptyDB with
        product := samples.enum.map fun x =>
          ("_id", vOid (oidOfNat (emptyDB.nextId + x.1))) :: x.2,
        nextId := emptyDB.nextId + 4 } ∧
    ∀ d', (seed_products (some emptyDB)).2 = some d' →
      seed_products (some d') =
        (Resp.ok ⟨0, some "Products already exist"⟩, some d') :=
  claim_C3 emptyDB rfl

/-- C4: when the store is unconfigured, `list_products` returns an empty
sequence without error while `create_product` returns a 500 error, for
every request. -/
theorem claim_C4 (p : Product) :
    list_products none = Resp.ok [] ∧
    (create_product none p).1 = Resp.err 500 "Database not configured" :=
  ⟨rfl, rfl⟩

/-- C5, counterexample: a stored document whose native `_id` field is
not an ObjectId (here a plain string) is returned by `list_products`
unchanged: it still exposes `_id` and carries no `id` field, because
`serialize_doc` only rewrites `_id` when it is an `ObjectId` instance. -/
theorem claim_C5_counterexample :
    (Doc.hasKey [("_id", vStr "raw")] "_id" = true ∧
      Doc.hasKey [("_id", vStr "raw")] "id" = false) ∧
    list_products (some ⟨[[("_id", vStr "raw")]], [], 0⟩) =
      Resp.ok [[("_id", vStr "raw")]] :=
  ⟨by decide, rfl⟩

/-- C5, amended: every record returned by `list_products` or
`get_product` whose fetched document carries an ObjectId in its native
`_id` field — as every document created by this service does — carries a
string `id` field and no `_id` field. -/
theorem claim_C5 (d : DB)
    (hid : ∀ doc ∈ d.product, ∃ s, doc.get "_id" = some (vOid s)) :
    (∀ out, list_products (some d) = Resp.ok out →
      ∀ rec ∈ out, (∃ s, rec.get "id" = some (vStr s)) ∧
        rec.get "_id" = none) ∧
    (∀ pid rec, get_product (some d) pid = Resp.ok rec →
      (∃ s, rec.get "id" = some (vStr s)) ∧ rec.get "_id" = none) := by
  constructor
  · intro out hout rec hrec
    have hout' : out = d.product.map serialize_doc :=
      (Resp.ok.inj hout).symm
    subst hout'
    rcases List.mem_map.mp hrec with ⟨doc, hdoc, rfl⟩
    rcases hid doc hdoc with ⟨s, hs⟩
    rcases serialize_doc_id_spec doc s hs with ⟨h1, h2⟩
    exact ⟨⟨s, h1⟩, h2⟩
  · intro pid rec hrec
    cases hpo : parseOid pid with
    | none => simp [get_product, hpo] at hrec
    | some oid =>
      cases hfo : find_one d "product" oid with
      | none => simp [get_product, hpo, hfo] at hrec
      | some doc =>
        have hrec' : rec = serialize_doc doc := by
          simp [get_product, hpo, hfo] at hrec
          exact hrec.symm
        subst hrec'
        have hp := List.find?_some hfo
        have hs : doc.get "_id" = some (vOid oid) := of_decide_eq_true hp
        rcases serialize_doc_id_spec doc oid hs with ⟨h1, h2⟩
        exact ⟨⟨oid, h1⟩, h2⟩

/-- Witness for C5 at a store holding the seeded sample documents. -/
theorem claim_C5_witness :
    (∀ out, list_products (some ⟨samples.map (fun p => ("_id", vOid (oidOfNat 0)) :: p), [], 4⟩) = Resp.ok out →
      ∀ rec ∈ out, (∃ s, rec.get "id" = some (vStr s)) ∧
        rec.get "_id" = none) ∧
    (∀ pid rec, get_product (some ⟨samples.map (fun p => ("_id", vOid (oidOfNat 0)) :: p), [], 4⟩) pid = Resp.ok rec →
      (∃ s, rec.get "id" = some (vStr s)) ∧ rec.get "_id" = none) :=
  claim_C5 _ (by intro doc hdoc
                 rcases List.mem_map.mp hdoc with ⟨p, _, rfl⟩
                 exact ⟨oidOfNat 0, rfl⟩)

/-- C6: for every well-formed product identifier matching no stored
record, `get_product` on a configured store yields 404. -/
theorem claim_C6 (d : DB) (s : String) (hv : isValidOid s = true)
    (hn : find_one d "product" s = none) :
    get_product (some d) s = Resp.err 404 "Product not found" := by
  simp [get_product, parseOid, hv, hn]

/-- Witness for C6 at the empty store and the all-zero identifier. -/
theorem claim_C6_witness :
    isValidOid "000000000000000000000000" = true ∧
    get_product (some emptyDB) "000000000000000000000000" =
      Resp.err 404 "Product not found" :=
  ⟨by decide, claim_C6 emptyDB _ (by decide) rfl⟩

/-- C7: for every valid-shaped order body, `create_order` on a
configured store inserts the record and returns the new identifier as a
string, and the outcome is independent of the product collection: no
referential check links the order to any product record. -/
theorem claim_C7 (d : DB) (order : Order) :
    (create_order (some d) order).1 = Resp.ok (oidOfNat d.nextId) ∧
    (create_order (some d) order).2 = some
      { d with order := d.order ++ [("_id", vOid (oidOfNat d.nextId)) :: order],
               nextId := d.nextId + 1 } ∧
    ∀ prods, (create_order (some { d with product := prods }) order).1 =
      (create_order (some d) order).1 :=
  ⟨rfl, rfl, fun _ => rfl⟩

/-- C8: the diagnostic endpoint `/test` never fails: for every store
state and every outcome of the store calls, including a raised
exception, it returns a status object; a caught exception is summarized
as text truncated to at most 50 characters rather than propagated. -/
theorem claim_C8 (store : Option DB) (dbName : String)
    (listColl : Except String (List String)) (urlSet nameSet : Bool) :
    (test_database store dbName listColl urlSet nameSet).backend =
      "✅ Running" ∧
    (∀ d e, store = some d → listColl = .error e →
      (test_database store dbName listColl urlSet nameSet).database =
        "⚠️  Connected but Error: " ++ truncate50 e) ∧
    (∀ e : String, (truncate50 e).length ≤ 50) := by
  refine ⟨?_, ?_, ?_⟩
  · cases store <;> cases listColl <;> rfl
  · rintro d e rfl rfl
    rfl
  · intro e
    show (e.data.take 50).length ≤ 50
    rw [List.length_take]
    exact min_le_left _ _

/-- Witness for C8 with a long concrete exception message. -/
theorem claim_C8_witness :
    (test_database (some emptyDB) "shop"
      (.error "connection reset by peer while reading batch of documents from server")
      true false).database =
      "⚠️  Connected but Error: " ++
        truncate50 "connection reset by peer while reading batch of documents from server" :=
  (claim_C8 (some emptyDB) "shop" _ true false).2.1 emptyDB _ rfl rfl

/-- C9: `serialize_doc` never mutates its input: under Python reference
semantics the dictionary passed in is unchanged after the call, because
the function copies the document before deleting `_id` or adding `id`,
and the returned reference holds the value of the pure
`serialize_doc`. -/
theorem claim_C9 (h : List Doc) (r : Nat) :
    (serialize_doc_ref h r).1[r]? = h[r]? ∧
    ∀ doc, h[r]? = some doc →
      (serialize_doc_ref h r).1[(serialize_doc_ref h r).2]? =
        some (serialize_doc doc) := by
  cases hg : h[r]? with
  | none =>
    exact ⟨by simp [serialize_doc_ref, hg], fun doc hdoc => by cases hdoc⟩
  | some doc =>
    have hr : r < h.length := by
      rcases List.getElem?_eq_some_iff.mp hg with ⟨hr, -⟩
      exact hr
    by_cases he : doc.isEmpty
    · refine ⟨by simp [serialize_doc_ref, hg, he], fun doc' hdoc' => ?_⟩
      cases hdoc'
      simp [serialize_doc_ref, hg, he, serialize_doc]
    · constructor
      · simp only [serialize_doc_ref, hg]
        rw [if_neg (by simpa using he)]
        rw [List.getElem?_append_left hr]
        exact hg
      · intro doc' hdoc'
        cases hdoc'
        simp only [serialize_doc_ref, hg]
        rw [if_neg (by simpa using he)]
        rw [List.getElem?_concat_length]
        have hserial : serialize_doc doc =
            (match doc.get "_id" with
             | some (vOid s) => (doc.set "id" (vStr s)).erase "_id"
             | _ => doc) := by
          unfold serialize_doc
          rw [if_neg (by simpa using he)]
        rw [hserial]

/-- Witness for C9 at a one-document heap. -/
theorem claim_C9_witness :
    (serialize_doc_ref [[("_id", vOid "00ff"), ("title", vStr "x")]] 0).1.get? 0 =
      some [("_id", vOid "00ff"), ("title", vStr "x")] ∧
    (serialize_doc_ref [[("_id", vOid "00ff"), ("title", vStr "x")]] 0).1.get?
        (serialize_doc_ref [[("_id", vOid "00ff"), ("title", vStr "x")]] 0).2 =
      some (serialize_doc [("_id", vOid "00ff"), ("title", vStr "x")]) :=
  ⟨(claim_C9 [[("_id", vOid "00ff"), ("title", vStr "x")]] 0).1.trans rfl,
   (claim_C9 [[("_id", vOid "00ff"), ("title", vStr "x")]] 0).2 _ rfl⟩

/-- C10: each of the 4 fixed sample records inserted by `seed_products`
satisfies the Product field set declared in the data model: string
title, description, category and image, non-negative price, boolean
in_stock flag. -/
theorem claim_C10 : samples.all isProductDoc = true := by decide
